import Mathlib

/-!
Shallow embedding of `content_agent_system.py`, a single-run content-planning
orchestrator.  Pure string-templating tools, the guardrail/skip engine and the
orchestrator run loop are translated as executable Lean functions; the
persistent JSON store is modelled as an in-memory `Memory` record (every
Python mutation immediately rewrites the backing file, so the in-memory record
is always the durable state).  Wall-clock timestamps (`now_iso`) and console
printing carry no information the properties below depend on and are omitted
from the records; the Python `args` field of completed log entries is likewise
omitted.
-/

namespace ContentAgent

/-- Result value produced by a tool: a list of strings (topics, hashtags),
a single string (drafted post, clarify question), or a schedule of
day/topic pairs. -/
inductive ToolResult where
  | strs : List String → ToolResult
  | str : String → ToolResult
  | sched : List (String × String) → ToolResult
deriving DecidableEq, Repr

/-- One entry of the work log (Python dict appended by `log_event`;
timestamp and `args` omitted, see module docstring). -/
structure LogEntry where
  task : String
  tool : String
  status : String
  output : Option String
  reason : Option String
deriving DecidableEq, Repr

/-- One record of the content library (Python dict appended in `run_system`;
timestamp omitted). -/
structure Asset where
  goal : String
  asset_type : String
  tool : String
  data : ToolResult
deriving DecidableEq, Repr

/-- The persistent memory: the three top-level fields of the JSON store. -/
structure Memory where
  completed_tasks : List String
  work_log : List LogEntry
  content_library : List Asset
deriving DecidableEq, Repr

/-- The empty store created when no backing file exists. -/
def emptyMemory : Memory :=
  { completed_tasks := [], work_log := [], content_library := [] }

/-- Python `str.lower()`, character by character (ASCII case folding). -/
def pyLower (s : String) : String :=
  String.mk (s.data.map Char.toLower)

/-- Python `str.strip()`: drop whitespace from both ends. -/
def pyStrip (s : String) : String :=
  String.mk (((s.data.dropWhile Char.isWhitespace).reverse.dropWhile
    Char.isWhitespace).reverse)

/-- Python slicing `text[:limit]`: the first `limit` characters. -/
def pySlice (s : String) (limit : Nat) : String :=
  String.mk (s.data.take limit)

/-- `truncate(text, limit=260)`: identity for short strings, first `limit`
characters followed by the fixed marker otherwise.  Callers in `run_system`
pass the default limit 260 explicitly here. -/
def truncate (text : String) (limit : Nat) : String :=
  if text.length ≤ limit then text else pySlice text limit ++ "...(truncated)"

/-- Rendering of a tool result to the string previewed in log entries.
Abstracts Python `str()`: a plain string renders as itself (the only case a
property below inspects); structured values render by interleaving their
parts. -/
def pyStr : ToolResult → String
  | ToolResult.str s => s
  | ToolResult.strs l => "[" ++ String.intercalate ", " l ++ "]"
  | ToolResult.sched l =>
      "[" ++ String.intercalate ", " (l.map (fun p => p.1 ++ ": " ++ p.2)) ++ "]"

/-- Raw shape of the backing file once parsed: each of the three known
top-level fields may be absent. -/
structure RawMemory where
  completed_tasks : Option (List String)
  work_log : Option (List LogEntry)
  content_library : Option (List Asset)
deriving DecidableEq, Repr

/-- `load_memory()`: the backing-file state is `none` when the file does not
exist, `some (Except.error e)` when it exists but `json.load` fails, and
`some (Except.ok raw)` when it parses.  A parse failure propagates; otherwise
`setdefault` fills each absent field with its empty default. -/
def load_memory (file : Option (Except String RawMemory)) : Except String Memory :=
  match file with
  | none => Except.ok emptyMemory
  | some (Except.error e) => Except.error e
  | some (Except.ok raw) =>
      Except.ok
        { completed_tasks := raw.completed_tasks.getD []
          work_log := raw.work_log.getD []
          content_library := raw.content_library.getD [] }

/-- `log_event`: append one entry to the work log (and persist). -/
def log_event (memory : Memory) (event : LogEntry) : Memory :=
  { memory with work_log := memory.work_log ++ [event] }

/-- `tool_generate_topics`: mock topic generator, five topics from the goal. -/
def tool_generate_topics (goal audience tone : String) : List String :=
  [ goal ++ ": 3 mistakes to avoid",
    goal ++ ": the step-by-step beginner roadmap",
    goal ++ ": what I wish I knew earlier",
    goal ++ ": tools and resources I actually use",
    goal ++ ": quick wins you can do this week" ]

/-- `tool_draft_post`: mock post writer. -/
def tool_draft_post (topic audience tone cta : String) : String :=
  "Hook: " ++ topic ++ "\n\n" ++
  "For " ++ audience ++ ":\n" ++
  "- Key point 1: Keep it simple and consistent.\n" ++
  "- Key point 2: Focus on one clear takeaway.\n" ++
  "- Key point 3: Take one action today.\n\n" ++
  "Tone: " ++ tone ++ "\n" ++
  "CTA: " ++ cta ++ "\n"

/-- Substring test used by `tool_hashtags` (Python `sub in s`). -/
def strContains (s sub : String) : Bool :=
  decide (1 < (s.splitOn sub).length) || decide (sub = "")

/-- `tool_hashtags`: base tags, niche-specific extensions, capped at 12. -/
def tool_hashtags (niche : String) : List String :=
  let base := ["#contentstrategy", "#creator", "#marketing", "#smallbusiness",
               "#consistency"]
  let base := if strContains (pyLower niche) "ai" then
      base ++ ["#ai", "#aiautomation", "#aigent", "#promptengineering",
               "#futureofwork"]
    else base
  let base := if strContains (pyLower niche) "real estate" then
      base ++ ["#realestate", "#realtor", "#houstonrealestate", "#investing",
               "#homebuyers"]
    else base
  base.take 12

/-- `tool_schedule`: five-post weekly schedule, one topic per weekday, with a
bonus filler past the end of the topic list. -/
def tool_schedule (topics : List String) : List (String × String) :=
  let days := ["Mon", "Tue", "Wed", "Thu", "Fri"]
  (days.enum.map (fun p => (p.2, topics.getD p.1 "Bonus: behind the scenes")))

/-- `tool_clarify`: formats a clarification question. -/
def tool_clarify (question : String) : String :=
  "I need one detail: " ++ question

/-- The static workflow: six ordered steps, `(step id, tool name)`. -/
def workflow : List (String × String) :=
  [ ("topics", "generate_topics"),
    ("post_1", "draft_post"),
    ("post_2", "draft_post"),
    ("post_3", "draft_post"),
    ("hashtags", "hashtags"),
    ("schedule", "schedule") ]

/-- The step-completion key `f"{run_key}:{task_id}"`. -/
def completed_key (rk task_id : String) : String :=
  rk ++ ":" ++ task_id

/-- `should_skip`: the step's completion key is already recorded. -/
def should_skip (task_id : String) (memory : Memory) (rk : String) : Bool :=
  decide (completed_key rk task_id ∈ memory.completed_tasks)

/-- `mark_done`: record the step's completion key (and persist). -/
def mark_done (task_id : String) (memory : Memory) (rk : String) : Memory :=
  { memory with completed_tasks := memory.completed_tasks ++ [completed_key rk task_id] }

/-- The run key `f"run:{content_goal.lower().strip()}"`. -/
def run_key (content_goal : String) : String :=
  "run:" ++ pyStrip (pyLower content_goal)

/-- The fixed positional topic index of a draft step,
`{"post_1": 0, "post_2": 1, "post_3": 2}.get(task_id, 0)`. -/
def topic_index (task_id : String) : Nat :=
  (([("post_1", 0), ("post_2", 1), ("post_3", 2)] : List (String × Nat)).lookup
    task_id).getD 0

/-- One iteration of the orchestrator loop: skip check, argument resolution
(with the clarify-and-continue path when topics are missing), tool execution,
and the three commits of a completed step.  The state is the memory plus the
run-scoped transient outputs (Python dict, modelled as an association list
with newest binding first).  The draft step reads its topic with a default
that is unreachable when topics came from `tool_generate_topics` (which always
yields five topics; Python would raise on an out-of-range index). -/
def run_step (content_goal audience niche tone cta rk : String)
    (state : Memory × List (String × ToolResult)) (step : String × String) :
    Memory × List (String × ToolResult) :=
  let memory := state.1
  let outputs := state.2
  let task_id := step.1
  let tool_name := step.2
  if should_skip task_id memory rk then
    (log_event memory
      { task := task_id, tool := tool_name, status := "skipped",
        output := none, reason := some "Already completed for this goal" },
     outputs)
  else
    let clarifyStep := fun (question : String) =>
      let result := tool_clarify question
      (log_event memory
        { task := task_id, tool := "clarify", status := "clarify",
          output := some (truncate result 260), reason := none },
       outputs)
    let completeStep := fun (result : ToolResult) =>
      let memory2 := { memory with
        content_library := memory.content_library ++
          [{ goal := content_goal, asset_type := task_id, tool := tool_name,
             data := result }] }
      let memory3 := log_event memory2
        { task := task_id, tool := tool_name, status := "completed",
          output := some (truncate (pyStr result) 260), reason := none }
      (mark_done task_id memory3 rk, (task_id, result) :: outputs)
    if tool_name = "generate_topics" then
      completeStep (ToolResult.strs (tool_generate_topics content_goal audience tone))
    else if tool_name = "draft_post" then
      match outputs.lookup "topics" with
      | some (ToolResult.strs topics) =>
          completeStep (ToolResult.str
            (tool_draft_post (topics.getD (topic_index task_id) "") audience tone cta))
      | _ => clarifyStep "I need topics first. Run generate_topics."
    else if tool_name = "hashtags" then
      completeStep (ToolResult.strs (tool_hashtags niche))
    else if tool_name = "schedule" then
      match outputs.lookup "topics" with
      | some (ToolResult.strs topics) =>
          completeStep (ToolResult.sched (tool_schedule topics))
      | _ => clarifyStep "I need topics first to build a schedule."
    else
      (memory, outputs)

/-- `run_system`: the orchestrator.  Takes the loaded memory and the five
string inputs; returns the final memory and the transient outputs (the
deliverables summary is a read-only projection of the latter).  A blank goal
short-circuits into a single clarify entry before any workflow step. -/
def run_system (memory : Memory) (content_goal audience niche tone cta : String) :
    Memory × List (String × ToolResult) :=
  let rk := run_key content_goal
  if pyStrip content_goal = "" then
    let result := tool_clarify "What is the content goal?"
    (log_event memory
      { task := "clarify_goal", tool := "clarify", status := "clarify",
        output := some (truncate result 260), reason := none },
     [])
  else
    workflow.foldl (run_step content_goal audience niche tone cta rk) (memory, [])

/-- The log entries a run appended on top of the starting memory. -/
def newLog (before after : Memory) : List LogEntry :=
  after.work_log.drop before.work_log.length

/-! ### General lemmas -/

/-- Appending to a string on the right is injective. -/
theorem append_right_inj (a : String) {b c : String} : a ++ b = a ++ c ↔ b = c := by
  constructor
  · intro hc
    have hd := congrArg String.data hc
    simp only [String.data_append] at hd
    exact String.ext (List.append_cancel_left hd)
  · intro h
    rw [h]

/-- Two completion keys for the same run key agree iff their step ids do. -/
theorem completed_key_inj (rk : String) {a b : String} :
    completed_key rk a = completed_key rk b ↔ a = b := by
  unfold completed_key
  exact append_right_inj (rk ++ ":")

/-- The per-operation shape of memory evolution: the three persistent fields
only grow by appending, and the number of appended assets and of appended
completion keys both equal the number of appended `completed` log entries. -/
def StepDelta (m m2 : Memory) : Prop :=
  ∃ t k l,
    m2.work_log = m.work_log ++ t ∧
    m2.completed_tasks = m.completed_tasks ++ k ∧
    m2.content_library = m.content_library ++ l ∧
    l.length = t.countP (fun e => decide (e.status = "completed")) ∧
    k.length = t.countP (fun e => decide (e.status = "completed"))

theorem StepDelta.refl (m : Memory) : StepDelta m m :=
  ⟨[], [], [], by simp, by simp, by simp, by simp, by simp⟩

theorem StepDelta.trans {m m2 m3 : Memory} (h : StepDelta m m2) (h2 : StepDelta m2 m3) :
    StepDelta m m3 := by
  obtain ⟨t, k, l, ht, hk, hl, hlen, hklen⟩ := h
  obtain ⟨t2, k2, l2, ht2, hk2, hl2, hlen2, hklen2⟩ := h2
  refine ⟨t ++ t2, k ++ k2, l ++ l2, ?_, ?_, ?_, ?_, ?_⟩
  · rw [ht2, ht, List.append_assoc]
  · rw [hk2, hk, List.append_assoc]
  · rw [hl2, hl, List.append_assoc]
  · rw [List.length_append, List.countP_append, hlen, hlen2]
  · rw [List.length_append, List.countP_append, hklen, hklen2]

theorem stepDelta_log_not_completed (m : Memory) (e : LogEntry)
    (h : e.status ≠ "completed") : StepDelta m (log_event m e) :=
  ⟨[e], [], [], rfl, by simp [log_event], by simp [log_event], by simp [h], by simp [h]⟩

theorem run_step_delta (g a n t c rk : String)
    (state : Memory × List (String × ToolResult)) (step : String × String) :
    StepDelta state.1 (run_step g a n t c rk state step).1 := by
  unfold run_step
  dsimp only
  split
  · exact stepDelta_log_not_completed _ _ (by simp)
  · split
    · exact ⟨[_], [_], [_], rfl, rfl, rfl, by simp [log_event, mark_done], by simp⟩
    · split
      · split
        · exact ⟨[_], [_], [_], rfl, rfl, rfl, by simp [log_event, mark_done], by simp⟩
        · exact stepDelta_log_not_completed _ _ (by simp)
      · split
        · exact ⟨[_], [_], [_], rfl, rfl, rfl, by simp [log_event, mark_done], by simp⟩
        · split
          · split
            · exact ⟨[_], [_], [_], rfl, rfl, rfl, by simp [log_event, mark_done], by simp⟩
            · exact stepDelta_log_not_completed _ _ (by simp)
          · exact StepDelta.refl _

theorem foldl_run_step_delta (g a n t c rk : String)
    (steps : List (String × String)) (state : Memory × List (String × ToolResult)) :
    StepDelta state.1 (steps.foldl (run_step g a n t c rk) state).1 := by
  induction steps generalizing state with
  | nil => exact StepDelta.refl _
  | cons s rest ih =>
      exact StepDelta.trans (run_step_delta g a n t c rk state s) (ih _)

theorem run_system_delta (memory : Memory) (g a n t c : String) :
    StepDelta memory (run_system memory g a n t c).1 := by
  unfold run_system
  dsimp only
  split
  · exact stepDelta_log_not_completed _ _ (by simp)
  · exact foldl_run_step_delta g a n t c _ workflow (memory, [])

/-- A fresh run with a non-blank goal marks all six steps done, in workflow
order. -/
theorem fresh_run_completed_tasks (g a n t c : String) (h : ¬ pyStrip g = "") :
    (run_system emptyMemory g a n t c).1.completed_tasks =
      [completed_key (run_key g) "topics", completed_key (run_key g) "post_1",
       completed_key (run_key g) "post_2", completed_key (run_key g) "post_3",
       completed_key (run_key g) "hashtags", completed_key (run_key g) "schedule"] := by
  simp [run_system, h, workflow, run_step, should_skip, log_event, mark_done,
    emptyMemory, completed_key_inj, List.lookup, topic_index]

/-- When all six completion keys are present, a run appends six skipped
entries and changes nothing else. -/
theorem skip_run_eval (m : Memory) (g a n t c : String) (h : ¬ pyStrip g = "")
    (h1 : completed_key (run_key g) "topics" ∈ m.completed_tasks)
    (h2 : completed_key (run_key g) "post_1" ∈ m.completed_tasks)
    (h3 : completed_key (run_key g) "post_2" ∈ m.completed_tasks)
    (h4 : completed_key (run_key g) "post_3" ∈ m.completed_tasks)
    (h5 : completed_key (run_key g) "hashtags" ∈ m.completed_tasks)
    (h6 : completed_key (run_key g) "schedule" ∈ m.completed_tasks) :
    run_system m g a n t c =
      ({ m with work_log := m.work_log ++
          ([("topics", "generate_topics"), ("post_1", "draft_post"),
            ("post_2", "draft_post"), ("post_3", "draft_post"),
            ("hashtags", "hashtags"), ("schedule", "schedule")].map
            (fun p => { task := p.1, tool := p.2, status := "skipped",
                        output := none,
                        reason := some "Already completed for this goal" })) },
       []) := by
  simp [run_system, h, workflow, run_step, should_skip, log_event, h1, h2, h3, h4,
    h5, h6]

/-! ### Claim theorems -/

/-- Claim C1, counterexample: on a fresh store with the goal
"Grow my newsletter", the run adds six completion keys and six Assets, not
five as the claim states (all six workflow steps, hashtags included, commit
an Asset and a key). -/
theorem c1_counterexample :
    (run_system emptyMemory "Grow my newsletter" "aud" "niche" "tone" "cta").1.completed_tasks.length = 6 ∧
    (run_system emptyMemory "Grow my newsletter" "aud" "niche" "tone" "cta").1.content_library.length = 6 ∧
    ¬ (run_system emptyMemory "Grow my newsletter" "aud" "niche" "tone" "cta").1.completed_tasks.length = 5 ∧
    ¬ (run_system emptyMemory "Grow my newsletter" "aud" "niche" "tone" "cta").1.content_library.length = 5 := by
  decide

/-- Claim C1, amended: on a fresh store, a run with the non-blank goal
"Grow my newsletter" produces exactly six log entries (topics, three drafts,
tags, schedule), all completed, adds six completion keys, appends six Assets,
and the schedule output holds five weekday entries Mon-Fri, each paired with
one of the five generated topic strings. -/
theorem c1_fresh_run (a n t c : String) :
    ((run_system emptyMemory "Grow my newsletter" a n t c).1.work_log.map
        (fun e => (e.task, e.status)) =
      [("topics", "completed"), ("post_1", "completed"), ("post_2", "completed"),
       ("post_3", "completed"), ("hashtags", "completed"), ("schedule", "completed")]) ∧
    (run_system emptyMemory "Grow my newsletter" a n t c).1.completed_tasks.length = 6 ∧
    (run_system emptyMemory "Grow my newsletter" a n t c).1.content_library.length = 6 ∧
    ((run_system emptyMemory "Grow my newsletter" a n t c).2.lookup "schedule" =
      some (ToolResult.sched
        [("Mon", "Grow my newsletter: 3 mistakes to avoid"),
         ("Tue", "Grow my newsletter: the step-by-step beginner roadmap"),
         ("Wed", "Grow my newsletter: what I wish I knew earlier"),
         ("Thu", "Grow my newsletter: tools and resources I actually use"),
         ("Fri", "Grow my newsletter: quick wins you can do this week")])) := by
  have h : ¬ pyStrip "Grow my newsletter" = "" := by decide
  simp [run_system, h, workflow, run_step, should_skip, log_event, mark_done,
    emptyMemory, completed_key_inj, List.lookup, topic_index, tool_schedule,
    tool_generate_topics, List.enum, List.enumFrom, List.getD]

/-- Claim C2: after a first run in which every step completed (fresh store,
non-blank goal), a second run with the identical goal produces exactly six
skipped log entries, appends no Asset, and leaves the number of completion
keys unchanged. -/
theorem c2_second_run_skips (g a n t c : String) (h : ¬ pyStrip g = "") :
    (newLog (run_system emptyMemory g a n t c).1
        (run_system (run_system emptyMemory g a n t c).1 g a n t c).1).map
      (fun e => e.status) =
      ["skipped", "skipped", "skipped", "skipped", "skipped", "skipped"] ∧
    (run_system (run_system emptyMemory g a n t c).1 g a n t c).1.content_library =
      (run_system emptyMemory g a n t c).1.content_library ∧
    (run_system (run_system emptyMemory g a n t c).1 g a n t c).1.completed_tasks.length =
      (run_system emptyMemory g a n t c).1.completed_tasks.length := by
  have hct := fresh_run_completed_tasks g a n t c h
  have hskip := skip_run_eval (run_system emptyMemory g a n t c).1 g a n t c h
    (by rw [hct]; simp) (by rw [hct]; simp) (by rw [hct]; simp)
    (by rw [hct]; simp) (by rw [hct]; simp) (by rw [hct]; simp)
  rw [hskip]
  simp [newLog]

/-- Witness for claim C2 at the concrete goal "g". -/
theorem c2_second_run_skips_witness :
    (newLog (run_system emptyMemory "g" "a" "n" "t" "c").1
        (run_system (run_system emptyMemory "g" "a" "n" "t" "c").1 "g" "a" "n" "t" "c").1).map
      (fun e => e.status) =
      ["skipped", "skipped", "skipped", "skipped", "skipped", "skipped"] ∧
    (run_system (run_system emptyMemory "g" "a" "n" "t" "c").1 "g" "a" "n" "t" "c").1.content_library =
      (run_system emptyMemory "g" "a" "n" "t" "c").1.content_library ∧
    (run_system (run_system emptyMemory "g" "a" "n" "t" "c").1 "g" "a" "n" "t" "c").1.completed_tasks.length =
      (run_system emptyMemory "g" "a" "n" "t" "c").1.completed_tasks.length :=
  c2_second_run_skips "g" "a" "n" "t" "c" (by decide)

/-- Claim C3, counterexample: in a second run after a fully completed first
run the topics step does not execute (no topics entry in the transient
outputs), yet the draft and schedule steps emit skipped entries, not clarify
ones — no entry of that run has status clarify. -/
theorem c3_counterexample :
    ((run_system (run_system emptyMemory "g" "a" "n" "t" "c").1 "g" "a" "n" "t" "c").2.lookup
        "topics" = none) ∧
    ((newLog (run_system emptyMemory "g" "a" "n" "t" "c").1
        (run_system (run_system emptyMemory "g" "a" "n" "t" "c").1 "g" "a" "n" "t" "c").1).map
      (fun e => (e.task, e.status)) =
      [("topics", "skipped"), ("post_1", "skipped"), ("post_2", "skipped"),
       ("post_3", "skipped"), ("hashtags", "skipped"), ("schedule", "skipped")]) ∧
    (∀ e ∈ newLog (run_system emptyMemory "g" "a" "n" "t" "c").1
        (run_system (run_system emptyMemory "g" "a" "n" "t" "c").1 "g" "a" "n" "t" "c").1,
      ¬ e.status = "clarify") := by decide

/-- The clarify-and-continue outcome of one dependent step within a run from
`m` to `r`: its single log entry carries the clarify tool and status, no
appended Asset is of its type, and its completion key is still absent. -/
def clarifiedNotDone (m r : Memory) (rk tid : String) : Prop :=
  ((r.work_log.drop m.work_log.length).filter (fun e => decide (e.task = tid))).map
      (fun e => (e.tool, e.status)) = [("clarify", "clarify")] ∧
  (∀ asset ∈ r.content_library.drop m.content_library.length, ¬ asset.asset_type = tid) ∧
  completed_key rk tid ∉ r.completed_tasks

/-- Claim C3, amended: in any run with a non-blank goal where the topics step
does not execute because it is skipped (its completion key is present, so no
topics entry ever enters the transient outputs), each of the three draft
steps and the schedule step that is not itself skipped — its own completion
key absent, whatever the other keys hold — emits a log entry with tool and
status clarify, appends no Asset, and is not marked done, while the run
continues through all six steps, each logging exactly one entry. -/
theorem c3_missing_topics (m : Memory) (g a n t c : String)
    (h : ¬ pyStrip g = "")
    (htop : completed_key (run_key g) "topics" ∈ m.completed_tasks) :
    (newLog m (run_system m g a n t c).1).map LogEntry.task =
      ["topics", "post_1", "post_2", "post_3", "hashtags", "schedule"] ∧
    (completed_key (run_key g) "post_1" ∉ m.completed_tasks →
      clarifiedNotDone m (run_system m g a n t c).1 (run_key g) "post_1") ∧
    (completed_key (run_key g) "post_2" ∉ m.completed_tasks →
      clarifiedNotDone m (run_system m g a n t c).1 (run_key g) "post_2") ∧
    (completed_key (run_key g) "post_3" ∉ m.completed_tasks →
      clarifiedNotDone m (run_system m g a n t c).1 (run_key g) "post_3") ∧
    (completed_key (run_key g) "schedule" ∉ m.completed_tasks →
      clarifiedNotDone m (run_system m g a n t c).1 (run_key g) "schedule") := by
  by_cases hp1 : completed_key (run_key g) "post_1" ∈ m.completed_tasks <;>
  by_cases hp2 : completed_key (run_key g) "post_2" ∈ m.completed_tasks <;>
  by_cases hp3 : completed_key (run_key g) "post_3" ∈ m.completed_tasks <;>
  by_cases hh : completed_key (run_key g) "hashtags" ∈ m.completed_tasks <;>
  by_cases hs : completed_key (run_key g) "schedule" ∈ m.completed_tasks <;>
  simp [run_system, h, htop, hp1, hp2, hp3, hh, hs, workflow, run_step, should_skip,
    log_event, mark_done, newLog, completed_key_inj, List.lookup, clarifiedNotDone,
    List.drop_left]

/-- Witness for claim C3 at a concrete store holding only the topics key: the
run logs all six steps and both the first draft step and the schedule step
clarify without an Asset or a completion key. -/
theorem c3_missing_topics_witness :
    (newLog { completed_tasks := [completed_key (run_key "g") "topics"],
              work_log := [], content_library := [] }
        (run_system { completed_tasks := [completed_key (run_key "g") "topics"],
                      work_log := [], content_library := [] } "g" "a" "n" "t" "c").1).map
      LogEntry.task =
      ["topics", "post_1", "post_2", "post_3", "hashtags", "schedule"] ∧
    clarifiedNotDone { completed_tasks := [completed_key (run_key "g") "topics"],
                       work_log := [], content_library := [] }
      (run_system { completed_tasks := [completed_key (run_key "g") "topics"],
                    work_log := [], content_library := [] } "g" "a" "n" "t" "c").1
      (run_key "g") "post_1" ∧
    clarifiedNotDone { completed_tasks := [completed_key (run_key "g") "topics"],
                       work_log := [], content_library := [] }
      (run_system { completed_tasks := [completed_key (run_key "g") "topics"],
                    work_log := [], content_library := [] } "g" "a" "n" "t" "c").1
      (run_key "g") "schedule" := by
  obtain ⟨h0, h1, h2, h3, h4⟩ :=
    c3_missing_topics
      { completed_tasks := [completed_key (run_key "g") "topics"],
        work_log := [], content_library := [] } "g" "a" "n" "t" "c"
      (by decide) (by simp)
  exact ⟨h0, h1 (by decide), h4 (by decide)⟩

/-- Claim C4: a blank goal appends exactly one log entry, with status clarify,
appends zero Assets, adds no completion keys, and returns with empty
transient outputs (no workflow step attempted). -/
theorem c4_blank_goal (memory : Memory) (g a n t c : String) (h : pyStrip g = "") :
    (newLog memory (run_system memory g a n t c).1).map LogEntry.status = ["clarify"] ∧
    (run_system memory g a n t c).1.content_library = memory.content_library ∧
    (run_system memory g a n t c).1.completed_tasks = memory.completed_tasks ∧
    (run_system memory g a n t c).2 = [] := by
  simp [run_system, h, newLog, log_event]

/-- Witness for claim C4 at a whitespace-only goal. -/
theorem c4_blank_goal_witness :
    (newLog emptyMemory (run_system emptyMemory "   " "a" "n" "t" "c").1).map LogEntry.status = ["clarify"] ∧
    (run_system emptyMemory "   " "a" "n" "t" "c").1.content_library = emptyMemory.content_library ∧
    (run_system emptyMemory "   " "a" "n" "t" "c").1.completed_tasks = emptyMemory.completed_tasks ∧
    (run_system emptyMemory "   " "a" "n" "t" "c").2 = [] :=
  c4_blank_goal emptyMemory "   " "a" "n" "t" "c" (by decide)

/-- Claim C5: truncation law — a string at or under the 260-character limit is
stored verbatim; a longer one is truncated to exactly its first 260
characters followed by the fixed marker, giving a preview of length 274. -/
theorem c5_truncation_law (s : String) :
    (s.length ≤ 260 → truncate s 260 = s) ∧
    (260 < s.length →
      truncate s 260 = pySlice s 260 ++ "...(truncated)" ∧
      (truncate s 260).data.take 260 = s.data.take 260 ∧
      (truncate s 260).length = 260 + 14) := by
  constructor
  · intro h
    simp [truncate, h]
  · intro h
    have hn : ¬ s.length ≤ 260 := by omega
    have hlen : s.data.length = s.length := rfl
    refine ⟨by simp [truncate, hn], ?_, ?_⟩
    · simp [truncate, hn, pySlice, String.data_append]
      rw [List.take_append_of_le_length, List.take_take]
      · simp
      · simp; omega
    · have hm : ("...(truncated)" : String).length = 14 := rfl
      have hp : (pySlice s 260).length = 260 := by
        simp [pySlice, String.length_mk]
        omega
      simp [truncate, hn, String.length_append, hp, hm]

/-- Witness for claim C5: a short string kept verbatim and a 300-character
string truncated. -/
theorem c5_truncation_law_witness :
    truncate "short" 260 = "short" ∧
    truncate (String.mk (List.replicate 300 'x')) 260 =
      pySlice (String.mk (List.replicate 300 'x')) 260 ++ "...(truncated)" :=
  ⟨(c5_truncation_law "short").1 (by decide),
   ((c5_truncation_law (String.mk (List.replicate 300 'x'))).2
      (by rw [String.length_mk, List.length_replicate]; omega)).1⟩

/-- Claim C6: the goals "Build Trust" and "  build trust  " map to the same
run key (case-normalized, whitespace-trimmed), hence to identical completion
keys for every step id. -/
theorem c6_run_key_normalization :
    run_key "Build Trust" = run_key "  build trust  " ∧
    ∀ task_id, completed_key (run_key "Build Trust") task_id =
      completed_key (run_key "  build trust  ") task_id := by
  have h : run_key "Build Trust" = run_key "  build trust  " := by decide
  exact ⟨h, fun task_id => by rw [h]⟩

/-- Claim C7: a run only appends to the work log and the content library —
the previous entries remain a prefix, and both lengths are monotonically
non-decreasing; composed over any sequence of runs this gives the append-only
law. -/
theorem c7_append_only (memory : Memory) (g a n t c : String) :
    (∃ tail, (run_system memory g a n t c).1.work_log = memory.work_log ++ tail) ∧
    (∃ tail, (run_system memory g a n t c).1.content_library = memory.content_library ++ tail) ∧
    memory.work_log.length ≤ (run_system memory g a n t c).1.work_log.length ∧
    memory.content_library.length ≤ (run_system memory g a n t c).1.content_library.length := by
  obtain ⟨tl, kl, ll, ht, hk, hl, hlen, hklen⟩ := run_system_delta memory g a n t c
  refine ⟨⟨tl, ht⟩, ⟨ll, hl⟩, ?_, ?_⟩
  · rw [ht, List.length_append]
    omega
  · rw [hl, List.length_append]
    omega

/-- Claim C8: loading propagates a parse error of an existing backing file,
returns the empty store when the file is missing, and otherwise keeps every
present top-level field unchanged while filling each absent one with its
empty default. -/
theorem c8_load_memory (e : String) (raw : RawMemory) :
    load_memory (some (Except.error e)) = Except.error e ∧
    load_memory none = Except.ok emptyMemory ∧
    ∃ m, load_memory (some (Except.ok raw)) = Except.ok m ∧
      (raw.completed_tasks = none → m.completed_tasks = []) ∧
      (∀ l, raw.completed_tasks = some l → m.completed_tasks = l) ∧
      (raw.work_log = none → m.work_log = []) ∧
      (∀ l, raw.work_log = some l → m.work_log = l) ∧
      (raw.content_library = none → m.content_library = []) ∧
      (∀ l, raw.content_library = some l → m.content_library = l) := by
  refine ⟨rfl, rfl, _, rfl, ?_, ?_, ?_, ?_, ?_, ?_⟩ <;>
    first
      | (intro h; simp [h])
      | (intro l h; simp [h])

/-- Witness for claim C8 at a malformed file and at a file holding only an
empty work log. -/
theorem c8_load_memory_witness :
    load_memory (some (Except.error "bad json")) = Except.error "bad json" ∧
    ∃ m, load_memory (some (Except.ok
        { completed_tasks := none, work_log := some [], content_library := none })) =
          Except.ok m ∧
      m.completed_tasks = [] ∧ m.work_log = [] ∧ m.content_library = [] := by
  obtain ⟨h1, _, m, hm, hct, _, _, hwl, hcl, _⟩ :=
    c8_load_memory "bad json"
      { completed_tasks := none, work_log := some [], content_library := none }
  exact ⟨h1, m, hm, hct rfl, hwl [] rfl, hcl rfl⟩

/-- Claim C9: the topic generator always returns exactly five topics, and the
fixed positional index of every draft step (0, 1 or 2, with default 0) is in
range of that list, so the out-of-range edge case is unreachable when topics
come from this tool. -/
theorem c9_topic_index_in_range (goal audience tone : String) :
    (tool_generate_topics goal audience tone).length = 5 ∧
    ∀ task_id, topic_index task_id < (tool_generate_topics goal audience tone).length := by
  refine ⟨rfl, fun task_id => ?_⟩
  show topic_index task_id < 5
  unfold topic_index
  simp only [List.lookup]
  split <;> simp_all
  split <;> simp_all
  split <;> simp_all

/-- Claim C10: within any single run, the number of Assets appended and the
number of completion keys added both equal the number of completed log
entries appended. -/
theorem c10_completion_balance (memory : Memory) (g a n t c : String) :
    (run_system memory g a n t c).1.content_library.length - memory.content_library.length =
      (newLog memory (run_system memory g a n t c).1).countP
        (fun e => decide (e.status = "completed")) ∧
    (run_system memory g a n t c).1.completed_tasks.length - memory.completed_tasks.length =
      (newLog memory (run_system memory g a n t c).1).countP
        (fun e => decide (e.status = "completed")) := by
  obtain ⟨tl, kl, ll, ht, hk, hl, hlen, hklen⟩ := run_system_delta memory g a n t c
  have hnew : newLog memory (run_system memory g a n t c).1 = tl := by
    rw [newLog, ht, List.drop_left]
  rw [hnew, hl, hk, List.length_append, List.length_append]
  omega

end ContentAgent
